import Mathlib

/-!
Verification of the field memory-layout addressing and introspection
contract of this repository.

Part 1 models the layout indexer: the dense storage-tree chain declared
in src/tests/python/test_indices.py, the physical-index-position query
and the byte-address computation it tests. The native runtime that
implements these is not part of src/, so the definitions are modelled
from the specification and the concrete values asserted by the test.

Part 2 embeds src/python/taichi/ui/utils.py: get_field_info and
check_ggui_availability, translated statement by statement.
-/

/-- A dense storage-tree chain: one (virtual axis id, extent) pair per
nesting level, listed outermost first.  The field b of the test is
declared as dense(j, 32).dense(i, 16), the field a has shape
(128, 32, 8) over axes 0, 1, 2 declared in order. -/
abbrev AxisChain : Type := List (Nat × Nat)

/-- Storage chain of field b in the test: axis j (id 1, extent 32)
declared outside axis i (id 0, extent 16). -/
def chainB : AxisChain := [(1, 32), (0, 16)]

/-- Storage chain of field a in the test: axes 0, 1, 2 in declaration
order with extents 128, 32, 8. -/
def chainA : AxisChain := [(0, 128), (1, 32), (2, 8)]

/-- The virtual axis ids declared by a chain, outermost first. -/
def declaredAxes (c : AxisChain) : List Nat := c.map Prod.fst

/-- Modelled from the spec: the native runtime method
SNode._physical_index_position is not under src/; only the test
src/tests/python/test_indices.py calls it.  The test asserts the value
at both of its fields is the identity dictionary on the declared axis
ids (it asserts mapping_a equals the dict sending 0 to 0, 1 to 1, 2
to 2, and mapping_b equals the dict sending 0 to 0 and 1 to 1, while
noting that b is column-major).  Accordingly each declared virtual axis
id maps to itself; an undeclared axis id is absent from the dictionary. -/
def physicalIndexPosition (c : AxisChain) (a : Nat) : Option Nat :=
  if a ∈ declaredAxes c then some a else none

/-- Modelled from the spec: the reading of section 4.2 of the spec in
which physical_index_position maps each virtual axis id to its physical
nesting depth, 0 being outermost, in declaration order of the storage
tree.  Kept separate so it can be compared against the mapping the test
asserts. -/
def physIndexPositionByDepth (c : AxisChain) (a : Nat) : Option Nat :=
  List.indexOf? a (declaredAxes c)

/-- Row-major offset, in elements, of a logical index assignment under
the physical (declaration-order) nesting of the chain: fold outermost
to innermost, multiplying by each extent and adding the index of the
axis declared at that level. -/
def physOffset (c : AxisChain) (idx : Nat → Nat) : Nat :=
  c.foldl (fun acc p => acc * p.2 + idx p.1) 0

/-- Modelled from the spec: the native address computation behind
ti.get_addr is not under src/; the test only asserts its stride.  Per
section 4.2 of the spec, the byte address is the row-major physical
offset scaled by the element byte size (plus a base that cancels in
every difference the spec and the test speak about, so the base is
taken as 0). -/
def address (elemSize : Nat) (c : AxisChain) (idx : Nat → Nat) : Nat :=
  elemSize * physOffset c idx

/-- Index assignment for a two-axis field: axis 0 reads i, axis 1
reads j. -/
def idx2 (i j : Nat) : Nat → Nat :=
  fun a => if a = 0 then i else j

/-- Modelled from the spec: writing a value at a logical index stores
it at the byte offset the layout assigns to that index; memory is a map
from element offsets to values. -/
def store (c : AxisChain) (mem : Nat → Nat) (idx : Nat → Nat) (v : Nat) :
    Nat → Nat :=
  fun off => if off = physOffset c idx then v else mem off

/-- Modelled from the spec: reading at a logical index loads from the
byte offset the layout assigns to that index. -/
def load (c : AxisChain) (mem : Nat → Nat) (idx : Nat → Nat) : Nat :=
  mem (physOffset c idx)

/-! ## Part 2: src/python/taichi/ui/utils.py -/

/-- Compute backends of the runtime; the values the elif chain of
get_field_info tests for, plus further backends the runtime offers
(metal, opengl, cc), which fall through to the unsupported branch. -/
inductive Arch where
  | cuda | x64 | arm64 | vulkan | metal | opengl | cc
deriving DecidableEq, Repr

/-- The FieldSource enumeration of the native core used by
get_field_info. -/
inductive FieldSource where
  | TaichiCuda | TaichiX64 | TaichiVulkan
deriving DecidableEq, Repr

/-- The FieldType enumeration of the native core. -/
inductive FieldType where
  | Scalar | Matrix
deriving DecidableEq, Repr

/-- A taichi field as get_field_info reads it: shape, an opaque dtype
handle, an opaque snode pointer, and, when the field is a matrix field
(hasattr n in the source), its row and column counts. -/
structure TiField where
  shape : List Nat
  dtype : Nat
  snodePtr : Nat
  matrixDims : Option (Nat × Nat)
deriving DecidableEq, Repr

/-- The FieldInfo record built by get_field_info.  A fresh
native FieldInfo starts with nothing populated; the Option fields model
the attributes the function may or may not set. -/
structure FieldInfo where
  valid : Bool := false
  field_source : Option FieldSource := none
  shape : List Nat := []
  dtype : Option Nat := none
  snode : Option Nat := none
  field_type : Option FieldType := none
  matrix_rows : Option Nat := none
  matrix_cols : Option Nat := none
deriving DecidableEq, Repr

/-- The elif chain of get_field_info lines 16 to 25: map the active
arch to a FieldSource or raise the unsupported-backend exception. -/
def backendSource (arch : Arch) : Except String FieldSource :=
  if arch = Arch.cuda then Except.ok FieldSource.TaichiCuda
  else if arch = Arch.x64 then Except.ok FieldSource.TaichiX64
  else if arch = Arch.arm64 then Except.ok FieldSource.TaichiX64
  else if arch = Arch.vulkan then Except.ok FieldSource.TaichiVulkan
  else Except.error "unsupported taichi backend"

/-- get_field_info from src/python/taichi/ui/utils.py.  The active
backend configuration default_cfg().arch is passed explicitly; a raised
exception becomes an error value. -/
def get_field_info (arch : Arch) (field : Option TiField) :
    Except String FieldInfo :=
  match field with
  | none => Except.ok { valid := false }
  | some f =>
    match backendSource arch with
    | Except.error e => Except.error e
    | Except.ok fs =>
      match f.matrixDims with
      | some nm =>
        Except.ok { valid := true, field_source := some fs,
                    shape := f.shape, dtype := some f.dtype,
                    snode := some f.snodePtr,
                    field_type := some FieldType.Matrix,
                    matrix_rows := some nm.1, matrix_cols := some nm.2 }
      | none =>
        Except.ok { valid := true, field_source := some fs,
                    shape := f.shape, dtype := some f.dtype,
                    snode := some f.snodePtr,
                    field_type := some FieldType.Scalar,
                    matrix_rows := some 1, matrix_cols := some 1 }

/-- The global state get_field_info can see: the active backend
configuration.  Used to state that the function reads it without
writing it. -/
structure World where
  arch : Arch
deriving DecidableEq, Repr

/-- Reading default_cfg().arch: returns the value and the unchanged
world, the only state access in get_field_info. -/
def readArch (w : World) : Arch × World := (w.arch, w)

/-- get_field_info with the global state threaded explicitly: every
access to default_cfg() goes through readArch and the resulting world
is returned alongside the descriptor or error. -/
def get_field_info_w (w : World) (field : Option TiField) :
    Except String FieldInfo × World :=
  match field with
  | none => (Except.ok { valid := false }, w)
  | some f =>
    let (a, w1) := readArch w
    match backendSource a with
    | Except.error e => (Except.error e, w1)
    | Except.ok fs =>
      match f.matrixDims with
      | some nm =>
        (Except.ok { valid := true, field_source := some fs,
                     shape := f.shape, dtype := some f.dtype,
                     snode := some f.snodePtr,
                     field_type := some FieldType.Matrix,
                     matrix_rows := some nm.1, matrix_cols := some nm.2 },
         w1)
      | none =>
        (Except.ok { valid := true, field_source := some fs,
                     shape := f.shape, dtype := some f.dtype,
                     snode := some f.snodePtr,
                     field_type := some FieldType.Scalar,
                     matrix_rows := some 1, matrix_cols := some 1 },
         w1)

/-! ## check_ggui_availability and its helpers -/

/-- An exception escaping the diagnosis code of
check_ggui_availability: either a GGUINotAvailableException with its
message, or any other Python exception, identified by an opaque code. -/
inductive PyExc where
  | ggui (msg : String)
  | other (code : Nat)
deriving DecidableEq, Repr

/-- Outcome of the pip probe of lines 117 to 126: the import of pip may
raise ImportError, some other exception may arise (for instance while
parsing the version string), or a version tuple is obtained. -/
inductive PipProbe where
  | importError
  | failure (code : Nat)
  | version (v : List Nat)
deriving DecidableEq, Repr

/-- Outcome of try_get_loaded_libc_version: its assert and its file
read can raise an exception (only StopIteration is caught inside); on
normal return it yields an optional two-part version. -/
inductive LibcProbe where
  | failure (code : Nat)
  | found (v : Option (Nat × Nat))
deriving DecidableEq, Repr

/-- Environment check_ggui_availability runs in: the GGUI_AVAILABLE
flag of the native core, the outcome of importing taichi, the wheel tag
returned by try_get_wheel_tag (total: it catches every exception and
returns None on failure), the platform.system() string, the outcome of
try_get_loaded_libc_version (its assert and file read can raise; on
success it returns an optional two-part version), and the pip probe. -/
structure GGUIEnv where
  gguiAvailable : Bool
  importTaichiErr : Option Nat
  wheelTag : Option String
  system : String
  libcProbe : LibcProbe
  pipProbe : PipProbe
deriving DecidableEq, Repr

/-- Whether the character list pat occurs at the head of the character
list text. -/
def charsMatchHere : List Char → List Char → Bool
  | [], _ => true
  | _ :: _, [] => false
  | a :: as, b :: bs => a = b && charsMatchHere as bs

/-- Whether the character list pat occurs anywhere inside text: the
Python operator pat in text. -/
def charsContain (pat : List Char) : List Char → Bool
  | [] => charsMatchHere pat []
  | b :: bs => charsMatchHere pat (b :: bs) || charsContain pat bs

/-- The Python membership test pat in s on strings. -/
def strContains (s pat : String) : Bool :=
  charsContain pat.data s.data

/-- The truthiness-guarded condition of lines 108 and 109:
platform.system() == Linux and wheel_tag and manylinux2014 in
wheel_tag.  A None or empty wheel tag makes it false. -/
def manylinuxCond (system : String) (wheelTag : Option String) : Bool :=
  system = "Linux" &&
    match wheelTag with
    | none => false
    | some t => !(t = "") && strContains t "manylinux2014"

/-- Python comparison of a two-part version tuple against (2, 27). -/
def libcVerLt (v : Nat × Nat) : Bool :=
  v.1 < 2 || (v.1 = 2 && v.2 < 27)

/-- Python comparison of integer tuples of arbitrary length:
lexicographic, a strict prefix being smaller. -/
def pyTupleLt : List Nat → List Nat → Bool
  | [], [] => false
  | [], _ :: _ => true
  | _ :: _, [] => false
  | a :: as, b :: bs =>
    if a < b then true else if b < a then false else pyTupleLt as bs

/-- Render a version tuple the way the pip message interpolates
pip.__version__ (the joined original string). -/
def verString (v : List Nat) : String :=
  String.intercalate "." (v.map toString)

/-- Message of line 113. -/
def msgOutdatedOS : String :=
  "GGUI is not available since you have installed a restricted version of taichi. Your OS is outdated, try upgrading to a recent one (e.g. Ubuntu 18.04 or later) if possible."

/-- Message of lines 121 to 124, with the pip version interpolated. -/
def msgOutdatedPip (v : List Nat) : String :=
  "GGUI is not available since you have installed a restricted version of taichi. Your pip (version " ++ verString v ++ ") is outdated (20.3.0 or later required), try upgrading pip and install taichi again."

/-- Message of line 129. -/
def msgRestricted : String :=
  "GGUI is not available since you have installed a restricted version of taichi."

/-- Message of line 138, the final generic raise. -/
def msgGeneric : String := "GGUI is not available."

/-- The inner pip try block, lines 117 to 126: an ImportError from
importing pip is passed over; any other exception, and the
GGUINotAvailableException raised on an outdated pip version,
propagate. -/
def pipBlock : PipProbe → Except PyExc Unit
  | PipProbe.importError => Except.ok ()
  | PipProbe.failure c => Except.error (PyExc.other c)
  | PipProbe.version v =>
    if pyTupleLt v [20, 3, 0] then Except.error (PyExc.ggui (msgOutdatedPip v))
    else Except.ok ()

/-- The diagnosis try block, lines 104 to 130: import taichi, read the
wheel tag, and in the restricted manylinux2014 case raise one of the
three GGUINotAvailableException messages; outside that case fall
through normally. -/
def diagnose (env : GGUIEnv) : Except PyExc Unit :=
  match env.importTaichiErr with
  | some c => Except.error (PyExc.other c)
  | none =>
    if manylinuxCond env.system env.wheelTag then
      match env.libcProbe with
      | LibcProbe.failure c => Except.error (PyExc.other c)
      | LibcProbe.found libcVer =>
        if (match libcVer with
            | some v => libcVerLt v
            | none => false) then
          Except.error (PyExc.ggui msgOutdatedOS)
        else
          match pipBlock env.pipProbe with
          | Except.error e => Except.error e
          | Except.ok () => Except.error (PyExc.ggui msgRestricted)
    else
      Except.ok ()

/-- check_ggui_availability, lines 98 to 138: return at once when
GGUI_AVAILABLE holds; otherwise run the diagnosis, re-raise a
GGUINotAvailableException it produced, swallow any other exception,
and end with the generic GGUINotAvailableException. -/
def check_ggui_availability (env : GGUIEnv) : Except PyExc Unit :=
  if env.gguiAvailable then Except.ok ()
  else
    match diagnose env with
    | Except.error (PyExc.ggui m) => Except.error (PyExc.ggui m)
    | Except.error (PyExc.other _) => Except.error (PyExc.ggui msgGeneric)
    | Except.ok () => Except.error (PyExc.ggui msgGeneric)

/-! ## Theorems -/

/-- For a fixed index assignment, the row-major fold over a chain does
not depend on the index value at an axis the chain never declares. -/
theorem foldl_congr_idx (c : AxisChain) (idx1 idx0 : Nat → Nat)
    (h : ∀ p ∈ c, idx1 p.1 = idx0 p.1) (a : Nat) :
    c.foldl (fun acc p => acc * p.2 + idx1 p.1) a
      = c.foldl (fun acc p => acc * p.2 + idx0 p.1) a := by
  induction c generalizing a with
  | nil => rfl
  | cons p c ih =>
    simp only [List.foldl_cons]
    rw [h p (List.mem_cons_self p c)]
    exact ih (fun q hq => h q (List.mem_cons_of_mem p hq)) _

/-- C1.  The claim states that for the field declared
dense(j, 32).dense(i, 16) the mapping is the dict sending 0 to 0 and 1
to 1 and at the same time reflects the declaration order of the storage
tree (axis i physically outer at depth 0).  The declaration-order
reading assigns axis 0 the depth 1 (axis j is declared outermost), so
the two parts cannot both hold: the claim as stated is false. -/
theorem spec2proof_c1_counterexample :
    ¬ (physicalIndexPosition chainB 0 = some 0 ∧
       physicalIndexPosition chainB 0 = physIndexPositionByDepth chainB 0) := by
  decide

/-- C1 amended.  For the field declared dense(j, 32).dense(i, 16),
physical_index_position returns the identity dictionary sending 0 to 0
and 1 to 1; this mapping follows the numeric virtual axis ids, not the
declared nesting depths (which are 1 for axis i and 0 for axis j), and
the declared nesting instead governs addressing: the stride along axis
i is one 4-byte element, making i the physically innermost-varying
axis. -/
theorem spec2proof_c1_amended :
    physicalIndexPosition chainB 0 = some 0 ∧
    physicalIndexPosition chainB 1 = some 1 ∧
    physicalIndexPosition chainB 2 = none ∧
    physIndexPositionByDepth chainB 0 = some 1 ∧
    physIndexPositionByDepth chainB 1 = some 0 ∧
    address 4 chainB (idx2 1 1) = address 4 chainB (idx2 0 1) + 4 := by
  decide

/-- C2.  When the physically innermost level of the chain declares an
axis no outer level declares, raising the index of that axis by 1 while
leaving every other axis unchanged raises the byte address by exactly
one element size (4 bytes for a 32-bit float field). -/
theorem spec2proof_c2_innermost_stride (elemSize : Nat) (c : AxisChain)
    (ax ext : Nat) (idx : Nat → Nat) (h : ∀ p ∈ c, p.1 ≠ ax) :
    address elemSize (c ++ [(ax, ext)]) (Function.update idx ax (idx ax + 1))
      = address elemSize (c ++ [(ax, ext)]) idx + elemSize := by
  unfold address physOffset
  rw [List.foldl_append, List.foldl_append]
  simp only [List.foldl_cons, List.foldl_nil]
  rw [foldl_congr_idx c (Function.update idx ax (idx ax + 1)) idx
      (fun p hp => Function.update_noteq (h p hp) _ _)]
  rw [Function.update_same]
  ring

/-- C2 witness: the concrete assertion of the test, with field b and
the index pair (0, 1) stepped to (1, 1) along axis i. -/
theorem spec2proof_c2_witness :
    (∀ p ∈ ([((1 : Nat), (32 : Nat))] : AxisChain), p.1 ≠ 0) ∧
    address 4 ([(1, 32)] ++ [(0, 16)]) (Function.update (idx2 0 1) 0 (idx2 0 1 0 + 1))
      = address 4 ([(1, 32)] ++ [(0, 16)]) (idx2 0 1) + 4 :=
  ⟨by decide, spec2proof_c2_innermost_stride 4 [(1, 32)] 0 16 (idx2 0 1) (by decide)⟩

/-- C3.  For the field of shape (128, 32, 8) with axes 0, 1, 2 declared
in order, physical_index_position is the identity dictionary on 0, 1,
2, and here the identity agrees with the nesting depth of each axis in
declaration order. -/
theorem spec2proof_c3_identity :
    physicalIndexPosition chainA 0 = some 0 ∧
    physicalIndexPosition chainA 1 = some 1 ∧
    physicalIndexPosition chainA 2 = some 2 ∧
    physIndexPositionByDepth chainA 0 = some 0 ∧
    physIndexPositionByDepth chainA 1 = some 1 ∧
    physIndexPositionByDepth chainA 2 = some 2 := by
  decide

/-- C4.  Writing a value at a logical index and reading back at the
same logical index yields that value, for every chain, memory state,
index assignment and value, hence regardless of the declared physical
layout order. -/
theorem spec2proof_c4_roundtrip (c : AxisChain) (mem : Nat → Nat)
    (idx : Nat → Nat) (v : Nat) :
    load c (store c mem idx v) idx = v := by
  unfold load store
  simp

/-- C5.  On a null field, get_field_info returns a descriptor whose
valid flag is false and whose other attributes stay unpopulated, and
raises no error, whatever the active backend is. -/
theorem spec2proof_c5_null_field (arch : Arch) :
    get_field_info arch none =
      Except.ok { valid := false, field_source := none, shape := [],
                  dtype := none, snode := none, field_type := none,
                  matrix_rows := none, matrix_cols := none } := rfl

/-- C6.  On a non-null field, when the active backend is none of cuda,
x64, arm64 and vulkan, get_field_info propagates the
unsupported-backend error to the caller: the result is exactly that
error, so no descriptor with a fallback tag is produced. -/
theorem spec2proof_c6_unsupported (arch : Arch) (f : TiField)
    (h1 : arch ≠ Arch.cuda) (h2 : arch ≠ Arch.x64)
    (h3 : arch ≠ Arch.arm64) (h4 : arch ≠ Arch.vulkan) :
    get_field_info arch (some f) = Except.error "unsupported taichi backend" := by
  cases arch <;> simp_all [get_field_info, backendSource]

/-- C6 witness: the metal backend is rejected on a concrete scalar
field. -/
theorem spec2proof_c6_witness :
    get_field_info Arch.metal
        (some { shape := [4], dtype := 0, snodePtr := 0, matrixDims := none })
      = Except.error "unsupported taichi backend" :=
  spec2proof_c6_unsupported Arch.metal
    { shape := [4], dtype := 0, snodePtr := 0, matrixDims := none }
    (by decide) (by decide) (by decide) (by decide)

/-- C7.  Every descriptor get_field_info returns for a non-null field
carries a backend tag from the closed set TaichiCuda, TaichiX64,
TaichiVulkan, with cuda tagged TaichiCuda, x64 and arm64 both tagged
TaichiX64, and vulkan tagged TaichiVulkan. -/
theorem spec2proof_c7_source_enum (arch : Arch) (f : TiField)
    (info : FieldInfo)
    (h : get_field_info arch (some f) = Except.ok info) :
    (info.field_source = some FieldSource.TaichiCuda ∨
     info.field_source = some FieldSource.TaichiX64 ∨
     info.field_source = some FieldSource.TaichiVulkan) ∧
    (arch = Arch.cuda → info.field_source = some FieldSource.TaichiCuda) ∧
    (arch = Arch.x64 → info.field_source = some FieldSource.TaichiX64) ∧
    (arch = Arch.arm64 → info.field_source = some FieldSource.TaichiX64) ∧
    (arch = Arch.vulkan → info.field_source = some FieldSource.TaichiVulkan) := by
  obtain ⟨sh, dt, sp, md⟩ := f
  cases arch <;> cases md <;>
    simp_all [get_field_info, backendSource] <;>
    subst h <;> simp

/-- C7 witness: a concrete scalar field under the cuda backend yields
the TaichiCuda tag and the conjunction of backend correspondences. -/
theorem spec2proof_c7_witness :
    (({ valid := true, field_source := some FieldSource.TaichiCuda,
        shape := [4], dtype := some 0, snode := some 0,
        field_type := some FieldType.Scalar,
        matrix_rows := some 1, matrix_cols := some 1 } : FieldInfo).field_source
        = some FieldSource.TaichiCuda ∨
     ({ valid := true, field_source := some FieldSource.TaichiCuda,
        shape := [4], dtype := some 0, snode := some 0,
        field_type := some FieldType.Scalar,
        matrix_rows := some 1, matrix_cols := some 1 } : FieldInfo).field_source
        = some FieldSource.TaichiX64 ∨
     ({ valid := true, field_source := some FieldSource.TaichiCuda,
        shape := [4], dtype := some 0, snode := some 0,
        field_type := some FieldType.Scalar,
        matrix_rows := some 1, matrix_cols := some 1 } : FieldInfo).field_source
        = some FieldSource.TaichiVulkan) ∧
    (Arch.cuda = Arch.cuda →
      ({ valid := true, field_source := some FieldSource.TaichiCuda,
         shape := [4], dtype := some 0, snode := some 0,
         field_type := some FieldType.Scalar,
         matrix_rows := some 1, matrix_cols := some 1 } : FieldInfo).field_source
        = some FieldSource.TaichiCuda) ∧
    (Arch.cuda = Arch.x64 →
      ({ valid := true, field_source := some FieldSource.TaichiCuda,
         shape := [4], dtype := some 0, snode := some 0,
         field_type := some FieldType.Scalar,
         matrix_rows := some 1, matrix_cols := some 1 } : FieldInfo).field_source
        = some FieldSource.TaichiX64) ∧
    (Arch.cuda = Arch.arm64 →
      ({ valid := true, field_source := some FieldSource.TaichiCuda,
         shape := [4], dtype := some 0, snode := some 0,
         field_type := some FieldType.Scalar,
         matrix_rows := some 1, matrix_cols := some 1 } : FieldInfo).field_source
        = some FieldSource.TaichiX64) ∧
    (Arch.cuda = Arch.vulkan →
      ({ valid := true, field_source := some FieldSource.TaichiCuda,
         shape := [4], dtype := some 0, snode := some 0,
         field_type := some FieldType.Scalar,
         matrix_rows := some 1, matrix_cols := some 1 } : FieldInfo).field_source
        = some FieldSource.TaichiVulkan) :=
  spec2proof_c7_source_enum Arch.cuda
    { shape := [4], dtype := 0, snodePtr := 0, matrixDims := none }
    { valid := true, field_source := some FieldSource.TaichiCuda,
      shape := [4], dtype := some 0, snode := some 0,
      field_type := some FieldType.Scalar,
      matrix_rows := some 1, matrix_cols := some 1 } rfl

/-- C8.  For every non-null field, the descriptor get_field_info
returns has kind Matrix with exactly the row and column counts of the
field when the field exposes them, and kind Scalar with both counts 1
otherwise. -/
theorem spec2proof_c8_element_kind (arch : Arch) (f : TiField)
    (info : FieldInfo)
    (h : get_field_info arch (some f) = Except.ok info) :
    (∀ n m : Nat, f.matrixDims = some (n, m) →
       info.field_type = some FieldType.Matrix ∧
       info.matrix_rows = some n ∧ info.matrix_cols = some m) ∧
    (f.matrixDims = none →
       info.field_type = some FieldType.Scalar ∧
       info.matrix_rows = some 1 ∧ info.matrix_cols = some 1) := by
  obtain ⟨sh, dt, sp, md⟩ := f
  cases arch <;> rcases md with _ | ⟨n0, m0⟩ <;>
    simp_all [get_field_info, backendSource] <;>
    (subst h; exact ⟨rfl, rfl, rfl⟩)

/-- C8 witness: a concrete 3 by 2 matrix field under the cuda backend
is described as a Matrix with counts 3 and 2. -/
theorem spec2proof_c8_witness :
    ({ valid := true, field_source := some FieldSource.TaichiCuda,
       shape := [4], dtype := some 0, snode := some 0,
       field_type := some FieldType.Matrix,
       matrix_rows := some 3, matrix_cols := some 2 } : FieldInfo).field_type
      = some FieldType.Matrix ∧
    ({ valid := true, field_source := some FieldSource.TaichiCuda,
       shape := [4], dtype := some 0, snode := some 0,
       field_type := some FieldType.Matrix,
       matrix_rows := some 3, matrix_cols := some 2 } : FieldInfo).matrix_rows
      = some 3 ∧
    ({ valid := true, field_source := some FieldSource.TaichiCuda,
       shape := [4], dtype := some 0, snode := some 0,
       field_type := some FieldType.Matrix,
       matrix_rows := some 3, matrix_cols := some 2 } : FieldInfo).matrix_cols
      = some 2 :=
  (spec2proof_c8_element_kind Arch.cuda
    { shape := [4], dtype := 0, snodePtr := 0, matrixDims := some (3, 2) }
    { valid := true, field_source := some FieldSource.TaichiCuda,
      shape := [4], dtype := some 0, snode := some 0,
      field_type := some FieldType.Matrix,
      matrix_rows := some 3, matrix_cols := some 2 } rfl).1 3 2 rfl

/-- C9.  get_field_info leaves the global state unchanged (no side
effects), and a second call on the same unchanged field under the
resulting state returns the same descriptor as the first: the function
is an idempotent pure read. -/
theorem spec2proof_c9_pure_idempotent (w : World) (field : Option TiField) :
    (get_field_info_w w field).2 = w ∧
    (get_field_info_w ((get_field_info_w w field).2) field).1
      = (get_field_info_w w field).1 := by
  cases field with
  | none => exact ⟨rfl, rfl⟩
  | some f =>
    obtain ⟨sh, dt, sp, md⟩ := f
    cases h : backendSource w.arch <;> cases md <;>
      simp [get_field_info_w, readArch, h]

/-- C10.  check_ggui_availability returns normally exactly when the
GGUI_AVAILABLE flag is set; when the flag is clear it raises, and the
escaping exception is always a GGUINotAvailableException; in
particular, when the internal diagnosis ends in any other exception,
that exception is swallowed and replaced by the generic
GGUINotAvailableException. -/
theorem spec2proof_c10_availability (env : GGUIEnv) :
    (check_ggui_availability env = Except.ok () ↔ env.gguiAvailable = true) ∧
    (env.gguiAvailable = false →
      ∃ m, check_ggui_availability env = Except.error (PyExc.ggui m)) ∧
    (∀ c : Nat, env.gguiAvailable = false →
      diagnose env = Except.error (PyExc.other c) →
      check_ggui_availability env = Except.error (PyExc.ggui msgGeneric)) := by
  unfold check_ggui_availability
  cases hg : env.gguiAvailable with
  | true => simp
  | false =>
    simp only [Bool.false_eq_true, if_false]
    cases hd : diagnose env with
    | ok u =>
      cases u
      exact ⟨by simp, fun _ => ⟨msgGeneric, rfl⟩, fun c _ hc => by simp_all⟩
    | error e =>
      cases e with
      | ggui m =>
        exact ⟨by simp, fun _ => ⟨m, rfl⟩, fun c _ hc => by simp_all⟩
      | other c0 =>
        exact ⟨by simp, fun _ => ⟨msgGeneric, rfl⟩, fun c _ hc => rfl⟩

/-- C10 witness: an environment with the flag clear in which importing
taichi raises an unrelated exception; the call raises the generic
GGUINotAvailableException. -/
theorem spec2proof_c10_witness :
    (∃ m, check_ggui_availability
        { gguiAvailable := false, importTaichiErr := some 7,
          wheelTag := none, system := "Linux",
          libcProbe := LibcProbe.found none,
          pipProbe := PipProbe.importError }
      = Except.error (PyExc.ggui m)) ∧
    check_ggui_availability
        { gguiAvailable := false, importTaichiErr := some 7,
          wheelTag := none, system := "Linux",
          libcProbe := LibcProbe.found none,
          pipProbe := PipProbe.importError }
      = Except.error (PyExc.ggui msgGeneric) :=
  ⟨(spec2proof_c10_availability
      { gguiAvailable := false, importTaichiErr := some 7,
        wheelTag := none, system := "Linux",
        libcProbe := LibcProbe.found none,
        pipProbe := PipProbe.importError }).2.1 rfl,
   (spec2proof_c10_availability
      { gguiAvailable := false, importTaichiErr := some 7,
        wheelTag := none, system := "Linux",
        libcProbe := LibcProbe.found none,
        pipProbe := PipProbe.importError }).2.2 7 rfl rfl⟩
